import Mathlib

set_option maxRecDepth 16000

/-!
Shallow embedding of the engagement-tracking core of the panganjawara
backend: the `likes`/`shares` ledger tables, the denormalized counters on
the `articles`/`posts`/`comments` tables, and the `statistics` event log.

SQL tables are lists of rows; each SQL statement becomes the corresponding
list operation (SELECT = filter, INSERT = append one row, DELETE = drop
the rows matching the WHERE clause, UPDATE = map over the rows satisfying
the WHERE clause).  Counters are `Int`, as in the store schema; timestamps
are abstract integers measured in days.  Columns irrelevant to the
engagement core (title, content, author, ...) are omitted from the row
types; no operation modelled here reads or writes them.
-/

namespace Engagement

/-- A row of the `likes` / `shares` tables (both share the same shape). -/
structure LedgerRow where
  user_ip : String
  user_agent : String
  content_type : String
  content_id : Nat
deriving DecidableEq

/-- An `articles` row, restricted to the engagement-relevant columns. -/
structure ArticleRow where
  id : Nat
  like_count : Int
  shared_count : Int
  view_count : Int
deriving DecidableEq

/-- A `posts` row, restricted to the engagement-relevant columns. -/
structure PostRow where
  id : Nat
  like_count : Int
  shared_count : Int
  view_count : Int
deriving DecidableEq

/-- A `comments` row, restricted to the engagement-relevant columns
(the comments table carries only a `like_count` counter). -/
structure CommentRow where
  id : Nat
  like_count : Int
deriving DecidableEq

/-- The relational store, i.e. the tables touched by the engagement core. -/
structure DB where
  likes : List LedgerRow
  shares : List LedgerRow
  articles : List ArticleRow
  posts : List PostRow
  comments : List CommentRow
deriving DecidableEq

/-- The `clientInfo` argument taken by the Article model's engagement
methods: a client fingerprint plus the user-agent string. -/
structure ClientInfo where
  fingerprint : String
  userAgent : String
deriving DecidableEq

/-- Result shape `{ liked, action }` returned by `toggleLike`. -/
structure LikeResult where
  liked : Bool
  action : String
deriving DecidableEq

/-- Result shape `{ shared, action }` returned by `toggleShare`. -/
structure ShareResult where
  shared : Bool
  action : String
deriving DecidableEq

/-- The shared WHERE clause
`user_ip = ? AND user_agent = ? AND content_type = ? AND content_id = ?`
used by every SELECT / DELETE against the ledger tables. -/
def ledgerMatch (userIp userAgent contentType : String) (cid : Nat)
    (r : LedgerRow) : Bool :=
  r.user_ip == userIp && r.user_agent == userAgent &&
    r.content_type == contentType && r.content_id == cid

/-- `Article.toggleLike(id, clientInfo)` (src/models/Article.js 214-241).
The identity key is the client fingerprint, truncated via
`substring(0,45)`; the user-agent is truncated via `substring(0,255)`. -/
def Article.toggleLike (id : Nat) (clientInfo : ClientInfo) (db : DB) :
    LikeResult × DB :=
  let uniqueId := clientInfo.fingerprint
  let existing := db.likes.filter
    (ledgerMatch (uniqueId.take 45) (clientInfo.userAgent.take 255) "article" id)
  if existing.length > 0 then
    let likes := db.likes.filter (fun r =>
      !(ledgerMatch (uniqueId.take 45) (clientInfo.userAgent.take 255) "article" id r))
    let articles := db.articles.map (fun a =>
      if a.id = id ∧ 0 < a.like_count then
        { a with like_count := a.like_count - 1 } else a)
    ({ liked := false, action := "unliked" },
     { db with likes := likes, articles := articles })
  else
    let likes := db.likes ++
      [{ user_ip := uniqueId.take 45, user_agent := clientInfo.userAgent.take 255,
         content_type := "article", content_id := id }]
    let articles := db.articles.map (fun a =>
      if a.id = id then { a with like_count := a.like_count + 1 } else a)
    ({ liked := true, action := "liked" },
     { db with likes := likes, articles := articles })

/-- `Article.hasUserLiked(id, clientInfo)` (src/models/Article.js 244-249):
pure existence check (`SELECT`, `rows.length > 0`). -/
def Article.hasUserLiked (id : Nat) (clientInfo : ClientInfo) (db : DB) : Bool :=
  let uniqueId := clientInfo.fingerprint
  decide (0 < (db.likes.filter
    (ledgerMatch (uniqueId.take 45) (clientInfo.userAgent.take 255) "article" id)).length)

/-- `Article.toggleShare(id, clientInfo)` (src/models/Article.js 252-278). -/
def Article.toggleShare (id : Nat) (clientInfo : ClientInfo) (db : DB) :
    ShareResult × DB :=
  let uniqueId := clientInfo.fingerprint
  let existing := db.shares.filter
    (ledgerMatch (uniqueId.take 45) (clientInfo.userAgent.take 255) "article" id)
  if existing.length > 0 then
    let shares := db.shares.filter (fun r =>
      !(ledgerMatch (uniqueId.take 45) (clientInfo.userAgent.take 255) "article" id r))
    let articles := db.articles.map (fun a =>
      if a.id = id ∧ 0 < a.shared_count then
        { a with shared_count := a.shared_count - 1 } else a)
    ({ shared := false, action := "unshared" },
     { db with shares := shares, articles := articles })
  else
    let shares := db.shares ++
      [{ user_ip := uniqueId.take 45, user_agent := clientInfo.userAgent.take 255,
         content_type := "article", content_id := id }]
    let articles := db.articles.map (fun a =>
      if a.id = id then { a with shared_count := a.shared_count + 1 } else a)
    ({ shared := true, action := "shared" },
     { db with shares := shares, articles := articles })

/-- `Article.hasUserShared(id, clientInfo)` (src/models/Article.js 281-286). -/
def Article.hasUserShared (id : Nat) (clientInfo : ClientInfo) (db : DB) : Bool :=
  let uniqueId := clientInfo.fingerprint
  decide (0 < (db.shares.filter
    (ledgerMatch (uniqueId.take 45) (clientInfo.userAgent.take 255) "article" id)).length)

/-- `Article.incrementShareCount(id)` (src/models/Article.js 289-293):
unconditional counter bump, returns `affectedRows > 0`. -/
def Article.incrementShareCount (id : Nat) (db : DB) : Bool × DB :=
  let articles := db.articles.map (fun a =>
    if a.id = id then { a with shared_count := a.shared_count + 1 } else a)
  (db.articles.any (fun a => a.id == id), { db with articles := articles })

/-- `Post.toggleLike(id, userIp, userAgent)` (src/models/Post.js 111-135).
Unlike the Article model, the Post model applies no truncation. -/
def Post.toggleLike (id : Nat) (userIp userAgent : String) (db : DB) :
    LikeResult × DB :=
  let existing := db.likes.filter (ledgerMatch userIp userAgent "post" id)
  if existing.length > 0 then
    let likes := db.likes.filter (fun r =>
      !(ledgerMatch userIp userAgent "post" id r))
    let posts := db.posts.map (fun p =>
      if p.id = id ∧ 0 < p.like_count then
        { p with like_count := p.like_count - 1 } else p)
    ({ liked := false, action := "unliked" },
     { db with likes := likes, posts := posts })
  else
    let likes := db.likes ++
      [{ user_ip := userIp, user_agent := userAgent,
         content_type := "post", content_id := id }]
    let posts := db.posts.map (fun p =>
      if p.id = id then { p with like_count := p.like_count + 1 } else p)
    ({ liked := true, action := "liked" },
     { db with likes := likes, posts := posts })

/-- `Post.hasUserLiked(id, userIp, userAgent)` (src/models/Post.js 138-142). -/
def Post.hasUserLiked (id : Nat) (userIp userAgent : String) (db : DB) : Bool :=
  decide (0 < (db.likes.filter (ledgerMatch userIp userAgent "post" id)).length)

/-- `Post.toggleShare(id, userIp, userAgent)` (src/models/Post.js 145-169). -/
def Post.toggleShare (id : Nat) (userIp userAgent : String) (db : DB) :
    ShareResult × DB :=
  let existing := db.shares.filter (ledgerMatch userIp userAgent "post" id)
  if existing.length > 0 then
    let shares := db.shares.filter (fun r =>
      !(ledgerMatch userIp userAgent "post" id r))
    let posts := db.posts.map (fun p =>
      if p.id = id ∧ 0 < p.shared_count then
        { p with shared_count := p.shared_count - 1 } else p)
    ({ shared := false, action := "unshared" },
     { db with shares := shares, posts := posts })
  else
    let shares := db.shares ++
      [{ user_ip := userIp, user_agent := userAgent,
         content_type := "post", content_id := id }]
    let posts := db.posts.map (fun p =>
      if p.id = id then { p with shared_count := p.shared_count + 1 } else p)
    ({ shared := true, action := "shared" },
     { db with shares := shares, posts := posts })

/-- `Post.hasUserShared(id, userIp, userAgent)` (src/models/Post.js 172-176). -/
def Post.hasUserShared (id : Nat) (userIp userAgent : String) (db : DB) : Bool :=
  decide (0 < (db.shares.filter (ledgerMatch userIp userAgent "post" id)).length)

/-- `Post.incrementShareCount(id)` (src/models/Post.js 179-183). -/
def Post.incrementShareCount (id : Nat) (db : DB) : Bool × DB :=
  let posts := db.posts.map (fun p =>
    if p.id = id then { p with shared_count := p.shared_count + 1 } else p)
  (db.posts.any (fun p => p.id == id), { db with posts := posts })

/-- `Comment.toggleLike(id, userIp, userAgent)` (src/models/Comment.js 105-129). -/
def Comment.toggleLike (id : Nat) (userIp userAgent : String) (db : DB) :
    LikeResult × DB :=
  let existing := db.likes.filter (ledgerMatch userIp userAgent "comment" id)
  if existing.length > 0 then
    let likes := db.likes.filter (fun r =>
      !(ledgerMatch userIp userAgent "comment" id r))
    let comments := db.comments.map (fun c =>
      if c.id = id ∧ 0 < c.like_count then
        { c with like_count := c.like_count - 1 } else c)
    ({ liked := false, action := "unliked" },
     { db with likes := likes, comments := comments })
  else
    let likes := db.likes ++
      [{ user_ip := userIp, user_agent := userAgent,
         content_type := "comment", content_id := id }]
    let comments := db.comments.map (fun c =>
      if c.id = id then { c with like_count := c.like_count + 1 } else c)
    ({ liked := true, action := "liked" },
     { db with likes := likes, comments := comments })

/-- `Comment.hasUserLiked(id, userIp, userAgent)` (src/models/Comment.js 132-136). -/
def Comment.hasUserLiked (id : Nat) (userIp userAgent : String) (db : DB) : Bool :=
  decide (0 < (db.likes.filter (ledgerMatch userIp userAgent "comment" id)).length)

/-- Modelled from the spec: the Identity Fingerprint Resolver (spec section 4.1)
lives in the HTTP route layer, which is not among the provided source files;
only its consumers (the model methods) are.  Per the spec, "when a richer
fingerprint is supplied, it is used verbatim; otherwise the network IP is
used directly as the key". -/
def resolveIdentityKey (fingerprint : Option String) (ip : String) : String :=
  match fingerprint with
  | some fp => fp
  | none => ip

/-- A row of the `statistics` table.  `created_at` is an abstract integer
timestamp measured in days; `id` is the store-generated identifier. -/
structure StatRow where
  id : Nat
  entity_type : String
  entity_id : Nat
  action : String
  ip_address : Option String
  user_agent : Option String
  country : Option String
  city : Option String
  created_at : Int
deriving DecidableEq

/-- The statistics store: the `statistics` table together with the
store-maintained id sequence and the clock read by `NOW()`. -/
structure StatDB where
  rows : List StatRow
  nextId : Nat
  now : Int
deriving DecidableEq

/-- JavaScript `x || null` applied to a nullable string column value:
`undefined`/`null` and the empty string (the falsy string) become `null`. -/
def orNull : Option String → Option String
  | some s => if s = "" then none else some s
  | none => none

/-- The `clientInfo` argument of `Statistics.logAction`: all four fields are
optional at the call sites. -/
structure StatClientInfo where
  ip : Option String
  userAgent : Option String
  country : Option String
  city : Option String
deriving DecidableEq

/-- `Statistics.record(entityType, entityId, action, ip, userAgent, country,
city)` (src/models/Statistics.js 7-21): unconditional `INSERT ... RETURNING
id`; returns the generated identifier. -/
def Statistics.record (entityType : String) (entityId : Nat) (action : String)
    (ipAddress userAgent country city : Option String) (db : StatDB) :
    Nat × StatDB :=
  let row : StatRow :=
    { id := db.nextId, entity_type := entityType, entity_id := entityId,
      action := action, ip_address := orNull ipAddress,
      user_agent := orNull userAgent, country := orNull country,
      city := orNull city, created_at := db.now }
  (db.nextId, { db with rows := db.rows ++ [row], nextId := db.nextId + 1 })

/-- JavaScript `action.split('_')[0]`: the maximal prefix of `action` that
contains no `'_'` (the whole string when `action` has no underscore). -/
def entityTypeOfAction (action : String) : String :=
  String.mk (action.data.takeWhile (fun c => c != '_'))

/-- `Statistics.logAction(action, entityId, clientInfo)`
(src/models/Statistics.js 24-37): derives the entity type from the action
name and delegates to `record`. -/
def Statistics.logAction (action : String) (entityId : Nat)
    (clientInfo : StatClientInfo) (db : StatDB) : Nat × StatDB :=
  let entityType := entityTypeOfAction action
  Statistics.record entityType entityId action clientInfo.ip
    clientInfo.userAgent clientInfo.country clientInfo.city db

/-- `Statistics.cleanOldStats(daysToKeep)` (src/models/Statistics.js 134-140):
`DELETE ... WHERE created_at < NOW() - (? * INTERVAL '1 day') RETURNING id`;
returns the number of deleted rows. -/
def Statistics.cleanOldStats (daysToKeep : Int) (db : StatDB) : Nat × StatDB :=
  let removed := db.rows.filter (fun r => decide (r.created_at < db.now - daysToKeep))
  let kept := db.rows.filter (fun r => decide (¬(r.created_at < db.now - daysToKeep)))
  (removed.length, { db with rows := kept })

/-- One sequential engagement call, for stating properties of arbitrary
sequences of toggle operations (spec section 8, counter non-negativity). -/
inductive ToggleOp where
  | articleLike (id : Nat) (clientInfo : ClientInfo)
  | articleShare (id : Nat) (clientInfo : ClientInfo)
  | postLike (id : Nat) (userIp userAgent : String)
  | postShare (id : Nat) (userIp userAgent : String)
  | commentLike (id : Nat) (userIp userAgent : String)

/-- Apply one engagement call to the store, discarding the returned value. -/
def ToggleOp.apply (db : DB) : ToggleOp → DB
  | .articleLike id ci => (Article.toggleLike id ci db).2
  | .articleShare id ci => (Article.toggleShare id ci db).2
  | .postLike id ip ua => (Post.toggleLike id ip ua db).2
  | .postShare id ip ua => (Post.toggleShare id ip ua db).2
  | .commentLike id ip ua => (Comment.toggleLike id ip ua db).2

/-- Run a sequence of engagement calls left to right. -/
def runOps (ops : List ToggleOp) (db : DB) : DB :=
  ops.foldl ToggleOp.apply db

/-- All like/share counters in the store are non-negative. -/
def countersNonneg (db : DB) : Prop :=
  (∀ a ∈ db.articles, 0 ≤ a.like_count ∧ 0 ≤ a.shared_count) ∧
  (∀ p ∈ db.posts, 0 ≤ p.like_count ∧ 0 ≤ p.shared_count) ∧
  (∀ c ∈ db.comments, 0 ≤ c.like_count)

instance (db : DB) : Decidable (countersNonneg db) := by
  unfold countersNonneg
  infer_instance

/-! ### Helper lemmas about the ledger WHERE clause and list-level SQL -/

theorem ledgerMatch_mk (ip ua ct : String) (cid : Nat) :
    ledgerMatch ip ua ct cid ⟨ip, ua, ct, cid⟩ = true := by
  simp [ledgerMatch]

theorem ledgerMatch_eq_true_iff (ip ua ct : String) (cid : Nat) (r : LedgerRow) :
    ledgerMatch ip ua ct cid r = true ↔ r = ⟨ip, ua, ct, cid⟩ := by
  cases r
  simp [ledgerMatch, and_assoc]

theorem filter_eq_nil_of_none (l : List LedgerRow) (p : LedgerRow → Bool)
    (h : ∀ r ∈ l, p r = false) : l.filter p = [] :=
  List.filter_eq_nil_iff.mpr (by intro a ha; simp [h a ha])

theorem filter_not_eq_self_of_none (l : List LedgerRow) (p : LedgerRow → Bool)
    (h : ∀ r ∈ l, p r = false) : l.filter (fun r => !(p r)) = l :=
  List.filter_eq_self.mpr (by intro a ha; simp [h a ha])

theorem forall_mem_map_of_closed {α : Type} (l : List α) (f : α → α) (P : α → Prop)
    (hf : ∀ a, P a → P (f a)) (h : ∀ a ∈ l, P a) : ∀ a ∈ l.map f, P a := by
  intro a ha
  rcases List.mem_map.mp ha with ⟨b, hb, rfl⟩
  exact hf b (h b hb)

/-! ### C3 -/

/-- C3: with no interleaving, the has-check made immediately after a toggle
reports exactly the engagement state the toggle returned: `hasUserLiked`
(resp. `hasUserShared`) on the post-toggle store equals the `liked` (resp.
`shared`) field of the toggle's result, for articles, posts and comments.
The checks are SELECT-only, so they are embedded as pure functions of the
store: they leave the state unchanged by construction. -/
theorem c3_toggle_then_check_agrees :
    (∀ id ci db, Article.hasUserLiked id ci (Article.toggleLike id ci db).2
        = (Article.toggleLike id ci db).1.liked) ∧
    (∀ id ci db, Article.hasUserShared id ci (Article.toggleShare id ci db).2
        = (Article.toggleShare id ci db).1.shared) ∧
    (∀ id ip ua db, Post.hasUserLiked id ip ua (Post.toggleLike id ip ua db).2
        = (Post.toggleLike id ip ua db).1.liked) ∧
    (∀ id ip ua db, Post.hasUserShared id ip ua (Post.toggleShare id ip ua db).2
        = (Post.toggleShare id ip ua db).1.shared) ∧
    (∀ id ip ua db, Comment.hasUserLiked id ip ua (Comment.toggleLike id ip ua db).2
        = (Comment.toggleLike id ip ua db).1.liked) := by
  refine ⟨fun id ci db => ?_, fun id ci db => ?_, fun id ip ua db => ?_,
      fun id ip ua db => ?_, fun id ip ua db => ?_⟩ <;>
    simp only [Article.toggleLike, Article.hasUserLiked, Article.toggleShare,
      Article.hasUserShared, Post.toggleLike, Post.hasUserLiked,
      Post.toggleShare, Post.hasUserShared, Comment.toggleLike,
      Comment.hasUserLiked] <;>
    split <;>
    simp [List.filter_filter, List.filter_append, ledgerMatch_mk]

/-! ### C1 -/

theorem articles_decLike_incLike (cid : Nat) (l : List ArticleRow)
    (h : ∀ a ∈ l, a.id = cid → 0 ≤ a.like_count) :
    ((l.map (fun a => if a.id = cid then { a with like_count := a.like_count + 1 } else a)).map
      (fun a => if a.id = cid ∧ 0 < a.like_count then
        { a with like_count := a.like_count - 1 } else a)) = l := by
  rw [List.map_map]
  refine (List.map_congr_left ?_).trans l.map_id
  intro a ha
  obtain ⟨i, lc, sc, vc⟩ := a
  simp only [Function.comp_apply]
  by_cases hid : i = cid
  · have hc := h ⟨i, lc, sc, vc⟩ ha hid
    have hpos : 0 < lc + 1 := by
      simp only at hc
      omega
    simp_all
  · simp [hid]

theorem posts_decShared_incShared (cid : Nat) (l : List PostRow)
    (h : ∀ p ∈ l, p.id = cid → 0 ≤ p.shared_count) :
    ((l.map (fun p => if p.id = cid then { p with shared_count := p.shared_count + 1 } else p)).map
      (fun p => if p.id = cid ∧ 0 < p.shared_count then
        { p with shared_count := p.shared_count - 1 } else p)) = l := by
  rw [List.map_map]
  refine (List.map_congr_left ?_).trans l.map_id
  intro p hp
  obtain ⟨i, lc, sc, vc⟩ := p
  simp only [Function.comp_apply]
  by_cases hid : i = cid
  · have hc := h ⟨i, lc, sc, vc⟩ hp hid
    have hpos : 0 < sc + 1 := by
      simp only at hc
      omega
    simp_all
  · simp [hid]

theorem comments_decLike_incLike (cid : Nat) (l : List CommentRow)
    (h : ∀ c ∈ l, c.id = cid → 0 ≤ c.like_count) :
    ((l.map (fun c => if c.id = cid then { c with like_count := c.like_count + 1 } else c)).map
      (fun c => if c.id = cid ∧ 0 < c.like_count then
        { c with like_count := c.like_count - 1 } else c)) = l := by
  rw [List.map_map]
  refine (List.map_congr_left ?_).trans l.map_id
  intro c hc'
  obtain ⟨i, lc⟩ := c
  simp only [Function.comp_apply]
  by_cases hid : i = cid
  · have hc := h ⟨i, lc⟩ hc' hid
    have hpos : 0 < lc + 1 := by
      simp only at hc
      omega
    simp_all
  · simp [hid]

/-- C1: from any store in which the identity has no engagement record for the
content (and the stored counters satisfy the data model's non-negativity
invariant), toggling twice in succession returns `{liked:true, action:"liked"}`
then `{liked:false, action:"unliked"}` (resp. shared/unshared), and the
content table is restored to its value before the first call — for
`Article.toggleLike`, `Post.toggleShare` and `Comment.toggleLike`. -/
theorem c1_toggle_twice_inverts :
    (∀ cid ci db,
      (∀ r ∈ db.likes,
        ledgerMatch (ClientInfo.fingerprint ci |>.take 45)
          (ClientInfo.userAgent ci |>.take 255) "article" cid r = false) →
      (∀ a ∈ db.articles, a.id = cid → 0 ≤ a.like_count) →
      (Article.toggleLike cid ci db).1 = { liked := true, action := "liked" } ∧
      (Article.toggleLike cid ci (Article.toggleLike cid ci db).2).1
        = { liked := false, action := "unliked" } ∧
      (Article.toggleLike cid ci (Article.toggleLike cid ci db).2).2.articles
        = db.articles) ∧
    (∀ cid ip ua db,
      (∀ r ∈ db.shares, ledgerMatch ip ua "post" cid r = false) →
      (∀ p ∈ db.posts, p.id = cid → 0 ≤ p.shared_count) →
      (Post.toggleShare cid ip ua db).1 = { shared := true, action := "shared" } ∧
      (Post.toggleShare cid ip ua (Post.toggleShare cid ip ua db).2).1
        = { shared := false, action := "unshared" } ∧
      (Post.toggleShare cid ip ua (Post.toggleShare cid ip ua db).2).2.posts
        = db.posts) ∧
    (∀ cid ip ua db,
      (∀ r ∈ db.likes, ledgerMatch ip ua "comment" cid r = false) →
      (∀ c ∈ db.comments, c.id = cid → 0 ≤ c.like_count) →
      (Comment.toggleLike cid ip ua db).1 = { liked := true, action := "liked" } ∧
      (Comment.toggleLike cid ip ua (Comment.toggleLike cid ip ua db).2).1
        = { liked := false, action := "unliked" } ∧
      (Comment.toggleLike cid ip ua (Comment.toggleLike cid ip ua db).2).2.comments
        = db.comments) := by
  refine ⟨fun cid ci db hL hC => ?_, fun cid ip ua db hL hC => ?_,
      fun cid ip ua db hL hC => ?_⟩
  · have hnil : db.likes.filter
        (ledgerMatch (ci.fingerprint.take 45) (ci.userAgent.take 255) "article" cid) = [] :=
      filter_eq_nil_of_none _ _ hL
    have e1 : Article.toggleLike cid ci db =
        ({ liked := true, action := "liked" },
         { db with
            likes := db.likes ++
              [⟨ci.fingerprint.take 45, ci.userAgent.take 255, "article", cid⟩],
            articles := db.articles.map (fun a =>
              if a.id = cid then { a with like_count := a.like_count + 1 } else a) }) := by
      simp [Article.toggleLike, hnil]
    refine ⟨by rw [e1], ?_, ?_⟩ <;>
      rw [e1] <;>
      simp [Article.toggleLike, List.filter_append, hnil, ledgerMatch_mk,
        filter_not_eq_self_of_none _ _ hL, articles_decLike_incLike cid db.articles hC]
  · have hnil : db.shares.filter (ledgerMatch ip ua "post" cid) = [] :=
      filter_eq_nil_of_none _ _ hL
    have e1 : Post.toggleShare cid ip ua db =
        ({ shared := true, action := "shared" },
         { db with
            shares := db.shares ++ [⟨ip, ua, "post", cid⟩],
            posts := db.posts.map (fun p =>
              if p.id = cid then { p with shared_count := p.shared_count + 1 } else p) }) := by
      simp [Post.toggleShare, hnil]
    refine ⟨by rw [e1], ?_, ?_⟩ <;>
      rw [e1] <;>
      simp [Post.toggleShare, List.filter_append, hnil, ledgerMatch_mk,
        filter_not_eq_self_of_none _ _ hL, posts_decShared_incShared cid db.posts hC]
  · have hnil : db.likes.filter (ledgerMatch ip ua "comment" cid) = [] :=
      filter_eq_nil_of_none _ _ hL
    have e1 : Comment.toggleLike cid ip ua db =
        ({ liked := true, action := "liked" },
         { db with
            likes := db.likes ++ [⟨ip, ua, "comment", cid⟩],
            comments := db.comments.map (fun c =>
              if c.id = cid then { c with like_count := c.like_count + 1 } else c) }) := by
      simp [Comment.toggleLike, hnil]
    refine ⟨by rw [e1], ?_, ?_⟩ <;>
      rw [e1] <;>
      simp [Comment.toggleLike, List.filter_append, hnil, ledgerMatch_mk,
        filter_not_eq_self_of_none _ _ hL, comments_decLike_incLike cid db.comments hC]

/-- Concrete client used by witnesses. -/
def ci0 : ClientInfo := { fingerprint := "fp-1", userAgent := "ua-1" }

/-- Concrete store used by witnesses: empty ledgers, one row per content
table, all counters zero. -/
def db0 : DB :=
  { likes := [], shares := [],
    articles := [⟨1, 0, 0, 0⟩],
    posts := [⟨1, 0, 0, 0⟩],
    comments := [⟨1, 0⟩] }

theorem c1_toggle_twice_inverts_witness :
    (∀ r ∈ db0.likes,
      ledgerMatch (ci0.fingerprint.take 45) (ci0.userAgent.take 255) "article" 1 r
        = false) ∧
    (∀ a ∈ db0.articles, a.id = 1 → 0 ≤ a.like_count) ∧
    ((Article.toggleLike 1 ci0 db0).1 = { liked := true, action := "liked" } ∧
     (Article.toggleLike 1 ci0 (Article.toggleLike 1 ci0 db0).2).1
        = { liked := false, action := "unliked" } ∧
     (Article.toggleLike 1 ci0 (Article.toggleLike 1 ci0 db0).2).2.articles
        = db0.articles) :=
  ⟨by decide, by decide,
   c1_toggle_twice_inverts.1 1 ci0 db0 (by decide) (by decide)⟩

/-! ### C2 -/

theorem countersNonneg_toggle_step (op : ToggleOp) (db : DB)
    (h : countersNonneg db) : countersNonneg (ToggleOp.apply db op) := by
  obtain ⟨hA, hP, hC⟩ := h
  cases op with
  | articleLike id ci =>
    simp only [ToggleOp.apply, Article.toggleLike]
    split <;>
      exact ⟨forall_mem_map_of_closed _ _ _
        (fun a pa => by split <;> [(refine ⟨?_, ?_⟩ <;> simp <;> omega); exact pa]) hA,
        hP, hC⟩
  | articleShare id ci =>
    simp only [ToggleOp.apply, Article.toggleShare]
    split <;>
      exact ⟨forall_mem_map_of_closed _ _ _
        (fun a pa => by split <;> [(refine ⟨?_, ?_⟩ <;> simp <;> omega); exact pa]) hA,
        hP, hC⟩
  | postLike id ip ua =>
    simp only [ToggleOp.apply, Post.toggleLike]
    split <;>
      exact ⟨hA, forall_mem_map_of_closed _ _ _
        (fun p pp => by split <;> [(refine ⟨?_, ?_⟩ <;> simp <;> omega); exact pp]) hP,
        hC⟩
  | postShare id ip ua =>
    simp only [ToggleOp.apply, Post.toggleShare]
    split <;>
      exact ⟨hA, forall_mem_map_of_closed _ _ _
        (fun p pp => by split <;> [(refine ⟨?_, ?_⟩ <;> simp <;> omega); exact pp]) hP,
        hC⟩
  | commentLike id ip ua =>
    simp only [ToggleOp.apply, Comment.toggleLike]
    split <;>
      exact ⟨hA, hP, forall_mem_map_of_closed _ _ _
        (fun c pc => by split <;> [(simp; omega); exact pc]) hC⟩

/-- C2: for every sequence of sequential toggle calls applied to a store
whose like/share counters are all non-negative, the counters are still
non-negative after the whole sequence — and since the sequence is
universally quantified, after every prefix, i.e. at every observation
point.  The decrement branches update a counter only under the
`count > 0` guard, and a decrement matching zero rows is a no-op of the
`UPDATE`, never an error. -/
theorem c2_counters_stay_nonneg (ops : List ToggleOp) (db : DB)
    (h : countersNonneg db) : countersNonneg (runOps ops db) := by
  induction ops generalizing db with
  | nil => simpa [runOps] using h
  | cons op rest ih =>
    simp only [runOps, List.foldl_cons]
    exact ih _ (countersNonneg_toggle_step op db h)

theorem c2_counters_stay_nonneg_witness :
    countersNonneg db0 ∧
    countersNonneg (runOps
      [ToggleOp.articleLike 1 ci0, ToggleOp.postShare 1 "ip" "ua",
       ToggleOp.articleLike 1 ci0, ToggleOp.articleLike 2 ci0,
       ToggleOp.commentLike 1 "ip" "ua"] db0) :=
  ⟨by decide, c2_counters_stay_nonneg _ db0 (by decide)⟩

/-! ### C5 -/

/-- N sequential calls of `Article.incrementShareCount`, collecting the
returned booleans (spec section 8, raw increment bypasses dedup). -/
def Article.incrementShareCountN (id : Nat) : Nat → DB → List Bool × DB
  | 0, db => ([], db)
  | n + 1, db =>
    let r := Article.incrementShareCount id db
    let rest := Article.incrementShareCountN id n r.2
    (r.1 :: rest.1, rest.2)

/-- N sequential calls of `Post.incrementShareCount`. -/
def Post.incrementShareCountN (id : Nat) : Nat → DB → List Bool × DB
  | 0, db => ([], db)
  | n + 1, db =>
    let r := Post.incrementShareCount id db
    let rest := Post.incrementShareCountN id n r.2
    (r.1 :: rest.1, rest.2)

/-- C5: N sequential `incrementShareCount` calls add exactly N to the
entity's `shared_count` (and nothing to any other row), touch neither
ledger table, and return `true` on every call whenever the entity row
exists — for both the Article and the Post model. -/
theorem c5_raw_increment_bypasses_ledger :
    (∀ n cid db,
      (Article.incrementShareCountN cid n db).2.shares = db.shares ∧
      (Article.incrementShareCountN cid n db).2.likes = db.likes ∧
      (Article.incrementShareCountN cid n db).2.articles
        = db.articles.map (fun a =>
            if a.id = cid then { a with shared_count := a.shared_count + n } else a) ∧
      ((∃ a ∈ db.articles, a.id = cid) →
        (Article.incrementShareCountN cid n db).1 = List.replicate n true)) ∧
    (∀ n cid db,
      (Post.incrementShareCountN cid n db).2.shares = db.shares ∧
      (Post.incrementShareCountN cid n db).2.likes = db.likes ∧
      (Post.incrementShareCountN cid n db).2.posts
        = db.posts.map (fun p =>
            if p.id = cid then { p with shared_count := p.shared_count + n } else p) ∧
      ((∃ p ∈ db.posts, p.id = cid) →
        (Post.incrementShareCountN cid n db).1 = List.replicate n true)) := by
  constructor
  · intro n cid
    induction n with
    | zero =>
      intro db
      refine ⟨rfl, rfl, ?_, fun _ => rfl⟩
      refine ((db.articles.map_congr_left ?_).trans db.articles.map_id).symm
      intro a _
      split <;> simp
    | succ n ih =>
      intro db
      obtain ⟨ihS, ihL, ihA, ihR⟩ := ih
        { db with articles := db.articles.map (fun a =>
            if a.id = cid then { a with shared_count := a.shared_count + 1 } else a) }
      refine ⟨ihS, ihL, ?_, ?_⟩
      · rw [Article.incrementShareCountN]
        simp only [Article.incrementShareCount] at ihA ⊢
        rw [ihA, List.map_map]
        refine List.map_congr_left ?_
        intro a _
        obtain ⟨i, lc, sc, vc⟩ := a
        by_cases hid : i = cid
        · simp [hid]
          omega
        · simp [hid]
      · intro hex
        rw [Article.incrementShareCountN, List.replicate_succ]
        simp only [Article.incrementShareCount]
        obtain ⟨a, ha, hid⟩ := hex
        refine congrArg₂ _ ?_ (ihR ⟨?_, ?_, ?_⟩)
        · simp only [List.any_eq_true]
          exact ⟨a, ha, by simp [hid]⟩
        on_goal 1 => exact (if a.id = cid then
          { a with shared_count := a.shared_count + 1 } else a)
        · exact List.mem_map_of_mem _ ha
        · split <;> simpa
  · intro n cid
    induction n with
    | zero =>
      intro db
      refine ⟨rfl, rfl, ?_, fun _ => rfl⟩
      refine ((db.posts.map_congr_left ?_).trans db.posts.map_id).symm
      intro p _
      split <;> simp
    | succ n ih =>
      intro db
      obtain ⟨ihS, ihL, ihP, ihR⟩ := ih
        { db with posts := db.posts.map (fun p =>
            if p.id = cid then { p with shared_count := p.shared_count + 1 } else p) }
      refine ⟨ihS, ihL, ?_, ?_⟩
      · rw [Post.incrementShareCountN]
        simp only [Post.incrementShareCount] at ihP ⊢
        rw [ihP, List.map_map]
        refine List.map_congr_left ?_
        intro p _
        obtain ⟨i, lc, sc, vc⟩ := p
        by_cases hid : i = cid
        · simp [hid]
          omega
        · simp [hid]
      · intro hex
        rw [Post.incrementShareCountN, List.replicate_succ]
        simp only [Post.incrementShareCount]
        obtain ⟨p, hp, hid⟩ := hex
        refine congrArg₂ _ ?_ (ihR ⟨?_, ?_, ?_⟩)
        · simp only [List.any_eq_true]
          exact ⟨p, hp, by simp [hid]⟩
        on_goal 1 => exact (if p.id = cid then
          { p with shared_count := p.shared_count + 1 } else p)
        · exact List.mem_map_of_mem _ hp
        · split <;> simpa

theorem c5_raw_increment_bypasses_ledger_witness :
    (∃ a ∈ db0.articles, a.id = 1) ∧
    (Article.incrementShareCountN 1 3 db0).1 = List.replicate 3 true ∧
    (Article.incrementShareCountN 1 3 db0).2.shares = db0.shares :=
  ⟨by decide,
   (c5_raw_increment_bypasses_ledger.1 3 1 db0).2.2.2 (by decide),
   (c5_raw_increment_bypasses_ledger.1 3 1 db0).1⟩

/-! ### C4 -/

/-- C4: the identity key produced by the Identity Fingerprint Resolver is
the client-supplied fingerprint verbatim when one is supplied, and the
network-origin IP otherwise; the derivation is deterministic (equal
inputs yield equal keys). -/
theorem c4_identity_key_derivation :
    (∀ fp ip, resolveIdentityKey (some fp) ip = fp) ∧
    (∀ ip, resolveIdentityKey none ip = ip) ∧
    (∀ fp₁ ip₁ fp₂ ip₂, fp₁ = fp₂ → ip₁ = ip₂ →
      resolveIdentityKey fp₁ ip₁ = resolveIdentityKey fp₂ ip₂) := by
  refine ⟨fun fp ip => rfl, fun ip => rfl, ?_⟩
  intro fp₁ ip₁ fp₂ ip₂ h₁ h₂
  rw [h₁, h₂]

theorem c4_identity_key_derivation_witness :
    (some "fp-1" : Option String) = some "fp-1" ∧ ("ip-1" : String) = "ip-1" ∧
    resolveIdentityKey (some "fp-1") "ip-1" = resolveIdentityKey (some "fp-1") "ip-1" :=
  ⟨rfl, rfl,
   c4_identity_key_derivation.2.2 (some "fp-1") "ip-1" (some "fp-1") "ip-1" rfl rfl⟩

/-! ### C7 -/

/-- A 45-character identity key. -/
def fp45 : String := String.mk (List.replicate 45 'a')

/-- A 46-character identity key whose first 45 characters agree with
`fp45`. -/
def fp46 : String := String.mk (List.replicate 46 'a')

/-- C7 as stated is false on the code: the Article model compares the
45-char truncations of the identity keys, so the distinct identities
`fp45` and `fp46` (same user-agent) are conflated — a toggle by the first
flips the engagement state reported for the second. -/
theorem c7_counterexample :
    fp45 ≠ fp46 ∧
    Article.hasUserLiked 1 { fingerprint := fp46, userAgent := "ua-1" } db0 = false ∧
    Article.hasUserLiked 1 { fingerprint := fp46, userAgent := "ua-1" }
      (Article.toggleLike 1 { fingerprint := fp45, userAgent := "ua-1" } db0).2 = true := by
  refine ⟨by decide, by decide, by decide⟩

theorem ledgerMatch_false_of_key_ne (kA uA kB uB ct : String) (cid : Nat)
    (hkey : ¬(kA = kB ∧ uA = uB)) :
    ledgerMatch kB uB ct cid (⟨kA, uA, ct, cid⟩ : LedgerRow) = false := by
  apply Bool.eq_false_iff.mpr
  intro htrue
  rw [ledgerMatch_eq_true_iff] at htrue
  exact hkey ⟨congrArg LedgerRow.user_ip htrue, congrArg LedgerRow.user_agent htrue⟩

theorem frame_filter_insert (l : List LedgerRow) (kA uA kB uB ct : String)
    (cid : Nat) (hkey : ¬(kA = kB ∧ uA = uB)) :
    (l ++ [(⟨kA, uA, ct, cid⟩ : LedgerRow)]).filter (ledgerMatch kB uB ct cid)
      = l.filter (ledgerMatch kB uB ct cid) := by
  simp [List.filter_append, ledgerMatch_false_of_key_ne kA uA kB uB ct cid hkey]

theorem frame_filter_delete (l : List LedgerRow) (kA uA kB uB ct : String)
    (cid : Nat) (hkey : ¬(kA = kB ∧ uA = uB)) :
    (l.filter (fun r => !(ledgerMatch kA uA ct cid r))).filter
        (ledgerMatch kB uB ct cid)
      = l.filter (ledgerMatch kB uB ct cid) := by
  have hfalse : ledgerMatch kA uA ct cid (⟨kB, uB, ct, cid⟩ : LedgerRow) = false :=
    ledgerMatch_false_of_key_ne kB uB kA uA ct cid
      (fun hAB => hkey ⟨hAB.1.symm, hAB.2.symm⟩)
  rw [List.filter_comm]
  refine List.filter_eq_self.mpr ?_
  intro r hr
  have hq := (List.mem_filter.mp hr).2
  rw [ledgerMatch_eq_true_iff] at hq
  subst hq
  simp [hfalse]

/-- C7 (amended): a toggle by identity A leaves the engagement state
reported for identity B unchanged provided A and B remain distinct as the
keys actually stored in the Ledger: for article content, the pair
(fingerprint`.take 45`, user-agent`.take 255`); for post and comment
content, the exact (user_ip, user_agent) pair.  (The un-amended claim
fails only through the Article truncation collision of
`c7_counterexample`.) -/
theorem c7_amended_toggle_frame :
    (∀ cid (A B : ClientInfo) db,
      ¬(A.fingerprint.take 45 = B.fingerprint.take 45 ∧
        A.userAgent.take 255 = B.userAgent.take 255) →
      Article.hasUserLiked cid B (Article.toggleLike cid A db).2
        = Article.hasUserLiked cid B db) ∧
    (∀ cid (A B : ClientInfo) db,
      ¬(A.fingerprint.take 45 = B.fingerprint.take 45 ∧
        A.userAgent.take 255 = B.userAgent.take 255) →
      Article.hasUserShared cid B (Article.toggleShare cid A db).2
        = Article.hasUserShared cid B db) ∧
    (∀ cid ipA uaA ipB uaB db, ¬(ipA = ipB ∧ uaA = uaB) →
      Post.hasUserLiked cid ipB uaB (Post.toggleLike cid ipA uaA db).2
        = Post.hasUserLiked cid ipB uaB db) ∧
    (∀ cid ipA uaA ipB uaB db, ¬(ipA = ipB ∧ uaA = uaB) →
      Post.hasUserShared cid ipB uaB (Post.toggleShare cid ipA uaA db).2
        = Post.hasUserShared cid ipB uaB db) ∧
    (∀ cid ipA uaA ipB uaB db, ¬(ipA = ipB ∧ uaA = uaB) →
      Comment.hasUserLiked cid ipB uaB (Comment.toggleLike cid ipA uaA db).2
        = Comment.hasUserLiked cid ipB uaB db) := by
  refine ⟨fun cid A B db hkey => ?_, fun cid A B db hkey => ?_,
      fun cid ipA uaA ipB uaB db hkey => ?_, fun cid ipA uaA ipB uaB db hkey => ?_,
      fun cid ipA uaA ipB uaB db hkey => ?_⟩ <;>
    simp only [Article.toggleLike, Article.hasUserLiked, Article.toggleShare,
      Article.hasUserShared, Post.toggleLike, Post.hasUserLiked,
      Post.toggleShare, Post.hasUserShared, Comment.toggleLike,
      Comment.hasUserLiked] <;>
    split <;>
    dsimp only <;>
    first
    | rw [frame_filter_delete _ _ _ _ _ _ _ hkey]
    | rw [frame_filter_insert _ _ _ _ _ _ _ hkey]

theorem c7_amended_toggle_frame_witness :
    ¬(ci0.fingerprint.take 45 = ("fp-2" : String).take 45 ∧
      ci0.userAgent.take 255 = ("ua-1" : String).take 255) ∧
    Article.hasUserLiked 1 { fingerprint := "fp-2", userAgent := "ua-1" }
        (Article.toggleLike 1 ci0 db0).2
      = Article.hasUserLiked 1 { fingerprint := "fp-2", userAgent := "ua-1" } db0 :=
  ⟨by decide,
   c7_amended_toggle_frame.1 1 ci0 { fingerprint := "fp-2", userAgent := "ua-1" }
     db0 (by decide)⟩

/-! ### C6 -/

/-- C6 as stated is false on the code: the Post model (like the Comment
model) stores the caller-supplied identity key verbatim — here a 46-char
key ends up in the Ledger untruncated. -/
theorem c6_counterexample_untruncated :
    ¬(∀ r ∈ (Post.toggleLike 1 fp46 "ua-1" db0).2.likes,
        r.user_ip.length ≤ 45) := by
  decide

theorem string_take_length_le (s : String) (n : Nat) : (s.take n).length ≤ n := by
  rw [String.take_eq]
  show (s.data.take n).length ≤ n
  simp

/-- C6 (amended): only the Article model truncates — every Ledger row an
Article engagement operation inserts is exactly the key row built from the
fingerprint truncated by `.take 45` and the user-agent truncated by
`.take 255` (and `.take n` always leaves at most `n` characters), while
the Post and Comment models insert the caller-supplied `userIp` and
`userAgent` verbatim, with no truncation. -/
theorem c6_amended_truncation :
    (∀ cid ci db r, r ∈ (Article.toggleLike cid ci db).2.likes →
      r ∈ db.likes ∨
        r = (⟨(ClientInfo.fingerprint ci).take 45,
          (ClientInfo.userAgent ci).take 255, "article", cid⟩ : LedgerRow)) ∧
    (∀ cid ci db r, r ∈ (Article.toggleShare cid ci db).2.shares →
      r ∈ db.shares ∨
        r = (⟨(ClientInfo.fingerprint ci).take 45,
          (ClientInfo.userAgent ci).take 255, "article", cid⟩ : LedgerRow)) ∧
    (∀ cid ip ua db r, r ∈ (Post.toggleLike cid ip ua db).2.likes →
      r ∈ db.likes ∨ r = (⟨ip, ua, "post", cid⟩ : LedgerRow)) ∧
    (∀ cid ip ua db r, r ∈ (Post.toggleShare cid ip ua db).2.shares →
      r ∈ db.shares ∨ r = (⟨ip, ua, "post", cid⟩ : LedgerRow)) ∧
    (∀ cid ip ua db r, r ∈ (Comment.toggleLike cid ip ua db).2.likes →
      r ∈ db.likes ∨ r = (⟨ip, ua, "comment", cid⟩ : LedgerRow)) ∧
    (∀ (s : String) (n : Nat), (s.take n).length ≤ n) := by
  refine ⟨fun cid ci db r hr => ?_, fun cid ci db r hr => ?_,
      fun cid ip ua db r hr => ?_, fun cid ip ua db r hr => ?_,
      fun cid ip ua db r hr => ?_, fun s n => string_take_length_le s n⟩
  · simp only [Article.toggleLike] at hr
    split at hr
    · exact Or.inl (List.mem_of_mem_filter hr)
    · rcases List.mem_append.mp hr with h | h
      · exact Or.inl h
      · exact Or.inr (List.mem_singleton.mp h)
  · simp only [Article.toggleShare] at hr
    split at hr
    · exact Or.inl (List.mem_of_mem_filter hr)
    · rcases List.mem_append.mp hr with h | h
      · exact Or.inl h
      · exact Or.inr (List.mem_singleton.mp h)
  · simp only [Post.toggleLike] at hr
    split at hr
    · exact Or.inl (List.mem_of_mem_filter hr)
    · rcases List.mem_append.mp hr with h | h
      · exact Or.inl h
      · exact Or.inr (List.mem_singleton.mp h)
  · simp only [Post.toggleShare] at hr
    split at hr
    · exact Or.inl (List.mem_of_mem_filter hr)
    · rcases List.mem_append.mp hr with h | h
      · exact Or.inl h
      · exact Or.inr (List.mem_singleton.mp h)
  · simp only [Comment.toggleLike] at hr
    split at hr
    · exact Or.inl (List.mem_of_mem_filter hr)
    · rcases List.mem_append.mp hr with h | h
      · exact Or.inl h
      · exact Or.inr (List.mem_singleton.mp h)

theorem c6_amended_truncation_witness :
    ((⟨fp46.take 45, ("ua-1" : String).take 255, "article", 1⟩ : LedgerRow)
        ∈ (Article.toggleLike 1 { fingerprint := fp46, userAgent := "ua-1" } db0).2.likes) ∧
    ((⟨fp46.take 45, ("ua-1" : String).take 255, "article", 1⟩ : LedgerRow) ∈ db0.likes ∨
      (⟨fp46.take 45, ("ua-1" : String).take 255, "article", 1⟩ : LedgerRow)
        = (⟨fp46.take 45, ("ua-1" : String).take 255, "article", 1⟩ : LedgerRow)) :=
  ⟨by decide,
   c6_amended_truncation.1 1 { fingerprint := fp46, userAgent := "ua-1" } db0
     (⟨fp46.take 45, ("ua-1" : String).take 255, "article", 1⟩ : LedgerRow) (by decide)⟩

/-! ### C8 -/

/-- C8: `logAction` appends exactly one statistics row whose entity type is
the prefix of the action name before the first underscore (so
`"video_create"` yields `"video"`), whose `action` column is the full
action string, whose ip/user-agent/country/city come from the client info
(normalized by the JS `|| null`, which maps only the empty string and
absent values to null), and it returns the identifier `record` returns. -/
theorem c8_logAction_derivation :
    (∀ action eid (ci : StatClientInfo) db,
      (Statistics.logAction action eid ci db).2.rows
        = db.rows ++
          [{ id := db.nextId, entity_type := entityTypeOfAction action,
             entity_id := eid, action := action, ip_address := orNull ci.ip,
             user_agent := orNull ci.userAgent, country := orNull ci.country,
             city := orNull ci.city, created_at := db.now }] ∧
      (Statistics.logAction action eid ci db).1
        = (Statistics.record (entityTypeOfAction action) eid action
            ci.ip ci.userAgent ci.country ci.city db).1) ∧
    (∀ action : String,
      (entityTypeOfAction action).data = action.data.takeWhile (fun c => c != '_')) ∧
    entityTypeOfAction "video_create" = "video" ∧
    (∀ o : Option String, o ≠ some "" → orNull o = o) := by
  refine ⟨fun action eid ci db => ⟨rfl, rfl⟩, fun action => rfl, by decide, ?_⟩
  intro o ho
  match o with
  | none => rfl
  | some s =>
    have hs : ¬(s = "") := fun h => ho (by rw [h])
    simp [orNull, hs]

theorem c8_logAction_derivation_witness :
    (some "203.0.113.5" : Option String) ≠ some "" ∧
    orNull (some "203.0.113.5") = some "203.0.113.5" :=
  ⟨by decide, c8_logAction_derivation.2.2.2 (some "203.0.113.5") (by decide)⟩

/-! ### C9 -/

theorem length_filter_partition {α : Type} (l : List α) (p : α → Bool) :
    (l.filter p).length + (l.filter (fun a => !(p a))).length = l.length := by
  induction l with
  | nil => rfl
  | cons a l ih =>
    by_cases h : p a <;> simp [List.filter_cons, h, Nat.succ_eq_add_one] <;> omega

/-- C9: `cleanOldStats(daysToKeep)` deletes exactly the statistics rows
whose `created_at` is older than `daysToKeep` days before now, keeps every
other row, and returns the number of rows removed (which complements the
number kept). -/
theorem c9_cleanOldStats_retention :
    ∀ (days : Int) (db : StatDB),
      (∀ r, r ∈ (Statistics.cleanOldStats days db).2.rows ↔
        (r ∈ db.rows ∧ ¬(r.created_at < db.now - days))) ∧
      (Statistics.cleanOldStats days db).1
        = (db.rows.filter (fun r => decide (r.created_at < db.now - days))).length ∧
      (Statistics.cleanOldStats days db).1
          + (Statistics.cleanOldStats days db).2.rows.length = db.rows.length := by
  intro days db
  refine ⟨?_, rfl, ?_⟩
  · intro r
    simp [Statistics.cleanOldStats, List.mem_filter]
  · show (db.rows.filter _).length + (db.rows.filter _).length = db.rows.length
    rw [show (fun r : StatRow => decide (¬(r.created_at < db.now - days)))
        = (fun r : StatRow => !(decide (r.created_at < db.now - days))) from
      funext (fun r => by rw [decide_not])]
    exact length_filter_partition db.rows _

/-! ### C10 -/

/-- C10: toggling like on a content id with no matching content row, by an
identity with no existing engagement record, still inserts the Ledger row
and returns `{liked:true, action:"liked"}`; the counter `UPDATE` matches
zero rows so the content table is unchanged, and no existence check is
performed — for both the Article and the Post model. -/
theorem c10_toggle_without_entity :
    (∀ cid ci db,
      (∀ a ∈ db.articles, a.id ≠ cid) →
      (∀ r ∈ db.likes, ledgerMatch ((ClientInfo.fingerprint ci).take 45)
        ((ClientInfo.userAgent ci).take 255) "article" cid r = false) →
      (Article.toggleLike cid ci db).1 = { liked := true, action := "liked" } ∧
      (Article.toggleLike cid ci db).2.likes = db.likes ++
        [(⟨(ClientInfo.fingerprint ci).take 45, (ClientInfo.userAgent ci).take 255,
          "article", cid⟩ : LedgerRow)] ∧
      (Article.toggleLike cid ci db).2.articles = db.articles) ∧
    (∀ cid ip ua db,
      (∀ p ∈ db.posts, p.id ≠ cid) →
      (∀ r ∈ db.likes, ledgerMatch ip ua "post" cid r = false) →
      (Post.toggleLike cid ip ua db).1 = { liked := true, action := "liked" } ∧
      (Post.toggleLike cid ip ua db).2.likes
        = db.likes ++ [(⟨ip, ua, "post", cid⟩ : LedgerRow)] ∧
      (Post.toggleLike cid ip ua db).2.posts = db.posts) := by
  constructor
  · intro cid ci db hNo hL
    have hnil : db.likes.filter
        (ledgerMatch (ci.fingerprint.take 45) (ci.userAgent.take 255) "article" cid) = [] :=
      filter_eq_nil_of_none _ _ hL
    have hmap : db.articles.map (fun a =>
        if a.id = cid then { a with like_count := a.like_count + 1 } else a)
          = db.articles :=
      (List.map_congr_left (fun a ha => by simp [hNo a ha])).trans db.articles.map_id
    refine ⟨?_, ?_, ?_⟩ <;> simp [Article.toggleLike, hnil, hmap]
  · intro cid ip ua db hNo hL
    have hnil : db.likes.filter (ledgerMatch ip ua "post" cid) = [] :=
      filter_eq_nil_of_none _ _ hL
    have hmap : db.posts.map (fun p =>
        if p.id = cid then { p with like_count := p.like_count + 1 } else p)
          = db.posts :=
      (List.map_congr_left (fun p hp => by simp [hNo p hp])).trans db.posts.map_id
    refine ⟨?_, ?_, ?_⟩ <;> simp [Post.toggleLike, hnil, hmap]

theorem c10_toggle_without_entity_witness :
    (∀ a ∈ db0.articles, a.id ≠ 99) ∧
    (∀ r ∈ db0.likes, ledgerMatch (ci0.fingerprint.take 45)
      (ci0.userAgent.take 255) "article" 99 r = false) ∧
    ((Article.toggleLike 99 ci0 db0).1 = { liked := true, action := "liked" } ∧
     (Article.toggleLike 99 ci0 db0).2.likes = db0.likes ++
       [(⟨ci0.fingerprint.take 45, ci0.userAgent.take 255, "article", 99⟩ : LedgerRow)] ∧
     (Article.toggleLike 99 ci0 db0).2.articles = db0.articles) :=
  ⟨by decide, by decide, c10_toggle_without_entity.1 99 ci0 db0 (by decide) (by decide)⟩

end Engagement
